import Mathlib

/-!
Verification of the GitHubAuthHelper repository's credential-issuance core.

The repository contains two variant implementations:
* a flat module `github_app_auth.py` — class `GitHubApp` with a single
  pre-configured installation id, an in-object token cache
  (`_installation_token`, `_token_expires_at`), a `force_refresh` flag and a
  retry-once-on-401 `make_api_request`;
* a package `src/github_auth_app/` — `Config` with `__post_init__`
  validation, class `GitHubApp` with a per-installation dict cache
  `_token_cache`, dynamic `get_installation_id` resolution and the facade
  `get_repository_token`, plus a Jenkins helper reporting cached expiries.

We shallowly embed both.  Wall-clock time is an `Int` (seconds since the Unix
epoch, UTC); per-call network effects (the exchange response, the lookup
response, HTTP statuses of API calls) are explicit inputs; the mutable object
state is passed and returned explicitly.  Each embedded function returns,
alongside its Python return value or raised exception, the post-call object
state and a count/flag of the network exchange calls it performed.
-/

set_option autoImplicit false

/-! ## Modelled Python primitives: strings and ISO-8601 timestamps -/

/-- Does the second list occur as an initial segment of the first? -/
def listStartsWith : List Char → List Char → Bool
  | _, [] => true
  | [], _ :: _ => false
  | a :: as, b :: bs => a = b && listStartsWith as bs

/-- Modelled from Python `str.endswith`. -/
def pyEndsWith (s suffix : String) : Bool :=
  listStartsWith s.data.reverse suffix.data.reverse

/-- Drop the last `n` characters, as Python `s[:-n]` does for `n = 1`. -/
def strDropRight (s : String) (n : Nat) : String :=
  String.mk (s.data.take (s.data.length - n))

/-- Take the first `n` characters (Python `s[:n]`). -/
def strTake (s : String) (n : Nat) : String :=
  String.mk (s.data.take n)

/-- Drop the first `n` characters (Python `s[n:]`). -/
def strDrop (s : String) (n : Nat) : String :=
  String.mk (s.data.drop n)

/-- Character count of a string. -/
def strLen (s : String) : Nat :=
  s.data.length

/-- Replace every occurrence of a (nonempty) pattern, fuelled so the
recursion is structural.  Modelled from Python `str.replace`. -/
def pyReplaceAux : Nat → List Char → List Char → List Char → List Char
  | 0, cs, _, _ => cs
  | _ + 1, [], _, _ => []
  | n + 1, c :: cs, pat, rep =>
    if pat ≠ [] ∧ listStartsWith (c :: cs) pat then
      rep ++ pyReplaceAux n ((c :: cs).drop pat.length) pat rep
    else
      c :: pyReplaceAux n cs pat rep

/-- Modelled from Python `str.replace` (all occurrences). -/
def pyReplace (s pat rep : String) : String :=
  String.mk (pyReplaceAux s.data.length s.data pat.data rep.data)

/-- Numeric value of a nonempty all-ASCII-digit character list. -/
def digitsVal : List Char → Option Nat
  | [] => none
  | l =>
    if l.all Char.isDigit then
      some (l.foldl (fun a c => a * 10 + (c.toNat - 48)) 0)
    else none

/-- Numeric value of a fixed-width decimal field of a string. -/
def fieldVal (s : String) (off width : Nat) : Option Nat :=
  digitsVal ((s.data.drop off).take width)

/-- The character at an index, if present. -/
def charAt (s : String) (i : Nat) : Option Char :=
  s.data.drop i |>.headD ' ' |> fun c => if i < s.data.length then some c else none

/-- Gregorian leap year. -/
def isLeap (y : Nat) : Bool :=
  (y % 4 = 0 && y % 100 ≠ 0) || y % 400 = 0

/-- Days in a month of the proleptic Gregorian calendar. -/
def daysInMonth (y m : Nat) : Nat :=
  if m = 2 then (if isLeap y then 29 else 28)
  else if m = 4 ∨ m = 6 ∨ m = 9 ∨ m = 11 then 30
  else 31

/-- Days from 1970-01-01 to year/month/day (valid for years ≥ 1), the
standard civil-from-days inverse used to place a calendar date on the epoch
timeline. -/
def daysFromCivil (y m d : Nat) : Int :=
  let yAdj := if m ≤ 2 then y - 1 else y
  let era := yAdj / 400
  let yoe := yAdj - era * 400
  let mp := if 2 < m then m - 3 else m + 9
  let doy := (153 * mp + 2) / 5 + (d - 1)
  let doe := yoe * 365 + yoe / 4 - yoe / 100 + doy
  (era * 146097 + doe : Int) - 719468

/-- Epoch instant (seconds, UTC) of a civil date-time with a UTC-offset in
seconds. -/
def epochOf (y mo d h mi s : Nat) (offsetSec : Int) : Int :=
  daysFromCivil y mo d * 86400 + (h * 3600 + mi * 60 + s : Nat) - offsetSec

/-- Modelled from Python `datetime.fromisoformat` on the shapes this code
feeds it: `YYYY-MM-DDTHH:MM:SS` with an optional `+HH:MM` / `-HH:MM` offset.
A string without an offset parses as a naive datetime; both call sites treat
a naive result as UTC (`github_app_auth.py` replaces the tzinfo with UTC
explicitly), so we return the UTC instant directly.  Returns `none` where
Python raises `ValueError`. -/
def fromisoformat (s : String) : Option Int :=
  let n := strLen s
  if n = 19 ∨ n = 25 then
    match fieldVal s 0 4, fieldVal s 5 2, fieldVal s 8 2,
          fieldVal s 11 2, fieldVal s 14 2, fieldVal s 17 2 with
    | some y, some mo, some d, some h, some mi, some sec =>
      if charAt s 4 = some '-' ∧ charAt s 7 = some '-' ∧ charAt s 10 = some 'T' ∧
         charAt s 13 = some ':' ∧ charAt s 16 = some ':' ∧
         1 ≤ mo ∧ mo ≤ 12 ∧ 1 ≤ d ∧ d ≤ daysInMonth y mo ∧
         h ≤ 23 ∧ mi ≤ 59 ∧ sec ≤ 59 then
        if n = 19 then
          some (epochOf y mo d h mi sec 0)
        else
          match charAt s 19, fieldVal s 20 2, fieldVal s 23 2 with
          | some sign, some oh, some om =>
            if (sign = '+' ∨ sign = '-') ∧ charAt s 22 = some ':' ∧
               oh ≤ 23 ∧ om ≤ 59 then
              let off : Int := (oh * 3600 + om * 60 : Nat)
              some (epochOf y mo d h mi sec (if sign = '+' then off else -off))
            else none
          | _, _, _ => none
      else none
    | _, _, _, _, _, _ => none
  else none

/-- Python truthiness of an optional string: `None` and `""` are falsy. -/
def optStrFalsy : Option String → Bool
  | none => true
  | some s => s = ""

/-- The exceptions the embedded code can raise. -/
inductive PyError where
  | valueError (msg : String)
  | httpError (status : Nat) (body : String)
  | fileNotFoundError (msg : String)
  deriving Repr, DecidableEq

deriving instance DecidableEq for Except

/-! ## Flat variant: `github_app_auth.py` -/

namespace github_app_auth

/-- JSON body of a successful `POST .../access_tokens` exchange response.
The flat variant indexes `data["token"]` and `data["expires_at"]` directly,
so both fields are present here. -/
structure ExchangeResp where
  token : String
  expires_at : String
  deriving Repr, DecidableEq

/-- Mutable state of the flat `GitHubApp` object: the configured (optional)
installation id and the cached installation token with its already-adjusted
expiry instant (`_token_expires_at` stores `raw - 5 min`). -/
structure AppState where
  installation_id : Option String
  installation_token : Option String
  token_expires_at : Option Int
  deriving Repr, DecidableEq

/-- JWT payload built by `generate_jwt`: `iat = now`, `exp = now + 600`,
`iss = app_id`. -/
structure JwtPayload where
  iat : Int
  exp : Int
  iss : String
  deriving Repr, DecidableEq

/-- Embedded `GitHubApp.generate_jwt` (payload only; the RS256 signature is
outside the model). -/
def generate_jwt (app_id : String) (now : Int) : JwtPayload :=
  { iat := now, exp := now + 10 * 60, iss := app_id }

/-- Expiry-string handling of `get_installation_token`: rewrite a trailing
"Z" to "+00:00", then `datetime.fromisoformat`; a naive result is stamped
UTC. -/
def parse_expires_at (s : String) : Option Int :=
  fromisoformat (if pyEndsWith s "Z" then strDropRight s 1 ++ "+00:00" else s)

/-- Result of one `get_installation_token` call: the returned token or the
raised exception, the post-call object state, and whether the call performed
a network exchange (which is also exactly when it minted a fresh JWT). -/
structure IssueResult where
  result : Except PyError String
  state : AppState
  exchanged : Bool
  deriving Repr, DecidableEq

/-- Embedded `GitHubApp.get_installation_token`.  `resp` is the JSON body
the exchange endpoint would answer with, were it called. -/
def get_installation_token (st : AppState) (force_refresh : Bool) (now : Int)
    (resp : ExchangeResp) : IssueResult :=
  if optStrFalsy st.installation_id then
    { result := .error (.valueError "Installation ID is required to get installation token"),
      state := st, exchanged := false }
  else
    match force_refresh, st.installation_token, st.token_expires_at with
    | false, some tok, some exp =>
      -- Python truthiness: an empty cached token string is falsy, so the
      -- cache test fails and the code falls through to the exchange.
      if tok = "" then exchange st now resp
      else if now < exp then
        { result := .ok tok, state := st, exchanged := false }
      else
        exchange st now resp
    | _, _, _ => exchange st now resp
where
  /-- The re-exchange tail of the function: store the token, parse the
  expiry, store `raw - 5 min`.  The token field is assigned before the
  expiry string is parsed, so a parse failure leaves the token updated and
  the old expiry in place, as in the source. -/
  exchange (st : AppState) (_now : Int) (resp : ExchangeResp) : IssueResult :=
    let st1 := { st with installation_token := some resp.token }
    match parse_expires_at resp.expires_at with
    | some raw =>
      { result := .ok resp.token,
        state := { st1 with token_expires_at := some (raw - 5 * 60) },
        exchanged := true }
    | none =>
      { result := .error (.valueError "Invalid isoformat string"),
        state := st1, exchanged := true }

/-- Result of one `make_api_request` call: the final HTTP response status
(or the exception from the token layer), the post-call state, the number of
exchange calls, the number of API requests sent, and the number of
forced-refresh `get_installation_token` calls. -/
structure ApiResult where
  result : Except PyError Nat
  state : AppState
  exchanges : Nat
  apiCalls : Nat
  forcedRefreshes : Nat
  deriving Repr, DecidableEq

/-- Embedded `GitHubApp.make_api_request`.  `status1` is the status the API
answers on the first attempt, `status2` on the retry; `resp1`/`resp2` are
the exchange bodies for the (up to two) token fetches.  On a 401 the code
force-refreshes once and re-sends once; whatever the retry returns is the
function's return value — no exception is raised for it here. -/
def make_api_request (st : AppState) (now : Int) (resp1 resp2 : ExchangeResp)
    (status1 status2 : Nat) : ApiResult :=
  let r1 := get_installation_token st false now resp1
  match r1.result with
  | .error e =>
    { result := .error e, state := r1.state,
      exchanges := if r1.exchanged then 1 else 0, apiCalls := 0, forcedRefreshes := 0 }
  | .ok _ =>
    if status1 = 401 then
      let r2 := get_installation_token r1.state true now resp2
      match r2.result with
      | .error e =>
        { result := .error e, state := r2.state,
          exchanges := (if r1.exchanged then 1 else 0) + (if r2.exchanged then 1 else 0),
          apiCalls := 1, forcedRefreshes := 1 }
      | .ok _ =>
        { result := .ok status2, state := r2.state,
          exchanges := (if r1.exchanged then 1 else 0) + (if r2.exchanged then 1 else 0),
          apiCalls := 2, forcedRefreshes := 1 }
    else
      { result := .ok status1, state := r1.state,
        exchanges := if r1.exchanged then 1 else 0, apiCalls := 1, forcedRefreshes := 0 }

/-- The Jenkins credentials bundle of the flat variant
(`GitHubAppJenkinsHelper.get_credentials_for_jenkins`): it calls
`get_installation_token` and then reports the object's `_token_expires_at`
field — the margin-adjusted instant — as the bundle's expiry. -/
def get_credentials_for_jenkins (st : AppState) (now : Int) (resp : ExchangeResp) :
    Except PyError (String × Option Int) :=
  let r := get_installation_token st false now resp
  match r.result with
  | .error e => .error e
  | .ok tok => .ok (tok, r.state.token_expires_at)

end github_app_auth

/-! ## Package variant: `src/github_auth_app/` -/

namespace github_auth_app

/-- Python `int(...)` acceptance for the strings `Config` validates:
optional surrounding whitespace, optional sign, then decimal digits with
single underscores allowed only between digits. -/
def pyIntParses (s : String) : Bool :=
  let t := stripSign (stripWs s.data)
  digitsU t
where
  /-- Strip the leading/trailing ASCII whitespace `int` ignores. -/
  stripWs (l : List Char) : List Char :=
    let ws := fun c => c = ' ' ∨ c = '\t' ∨ c = '\n' ∨ c = '\r' ∨
      c = Char.ofNat 11 ∨ c = Char.ofNat 12
    (l.dropWhile ws).reverse.dropWhile ws |>.reverse
  /-- Strip one optional leading sign. -/
  stripSign : List Char → List Char
    | '+' :: r => r
    | '-' :: r => r
    | r => r
  /-- Validate the digit body after the first digit: an underscore must sit
  between two digits. -/
  digitsUAux : List Char → Bool
    | [] => true
    | '_' :: c :: rest => c.isDigit && digitsUAux rest
    | '_' :: [] => false
    | c :: rest => c.isDigit && digitsUAux rest
  /-- Nonempty digit body, optionally with interior underscores. -/
  digitsU : List Char → Bool
    | [] => false
    | c :: rest => c.isDigit && digitsUAux rest

/-- Embedded `Config` dataclass: `app_id`, `private_key_path`, optional
`installation_id`. -/
structure Config where
  app_id : String
  private_key_path : String
  installation_id : Option String := none
  deriving Repr, DecidableEq

/-- Embedded `Config.__post_init__`.  The filesystem is the predicate
`fsExists`; construction involves no network activity.  Checks run in source
order: numeric `app_id`, existing key path, then numeric `installation_id`
when one is supplied. -/
def post_init (fsExists : String → Bool) (c : Config) : Except PyError Unit :=
  if ¬ pyIntParses c.app_id then
    .error (.valueError ("app_id must be numeric, got: " ++ c.app_id))
  else if ¬ fsExists c.private_key_path then
    .error (.fileNotFoundError ("Private key file not found: " ++ c.private_key_path))
  else
    match c.installation_id with
    | none => .ok ()
    | some i =>
      if pyIntParses i then .ok ()
      else .error (.valueError ("installation_id must be numeric, got: " ++ i))

/-- Embedded `GitHubApp._create_jwt` payload: `iat = now`,
`exp = now + 600`, `iss = config.app_id`. -/
def create_jwt (app_id : String) (now : Int) : github_app_auth.JwtPayload :=
  { iat := now, exp := now + 600, iss := app_id }

/-- One value of the `_token_cache` dict: the token string and the
`expires_at` datetime exactly as parsed from the response — no margin is
subtracted before storage in this variant. -/
structure CacheEntry where
  token : String
  expires_at : Int
  deriving Repr, DecidableEq

/-- The `_token_cache` dict, keyed by the string `"token_" ++ id`. -/
abbrev TokenCache := List (String × CacheEntry)

/-- Dict lookup. -/
def cacheLookup (c : TokenCache) (k : String) : Option CacheEntry :=
  match c with
  | [] => none
  | (k', v) :: rest => if k' = k then some v else cacheLookup rest k

/-- Dict assignment `cache[k] = v` (replace or append). -/
def cacheInsert (c : TokenCache) (k : String) (v : CacheEntry) : TokenCache :=
  match c with
  | [] => [(k, v)]
  | (k', v') :: rest =>
    if k' = k then (k, v) :: rest else (k', v') :: cacheInsert rest k v

/-- JSON body of a successful exchange response in the package variant: the
code reads `data["token"]` and `data.get("expires_at")`, so the expiry field
may be absent. -/
structure ExchangeResp where
  token : String
  expires_at : Option String
  deriving Repr, DecidableEq

/-- Expiry handling of this variant: `expires_at_str.replace("Z", "+00:00")`
then `datetime.fromisoformat`. -/
def parse_expires_at (s : String) : Option Int :=
  fromisoformat (pyReplace s "Z" "+00:00")

/-- Result of a package-variant call: Python return value or exception, the
post-call `_token_cache`, and how many exchange requests were sent. -/
structure PkgResult (α : Type) where
  result : Except PyError α
  cache : TokenCache
  exchanges : Nat
  deriving DecidableEq

/-- Embedded `GitHubApp.get_installation_token` (package variant).  A cached
entry is served while `now < expires_at - 5 min` — the margin is applied at
read time.  A fresh token is cached only when the response carries a truthy
`expires_at`; a malformed expiry string raises after the network call. -/
def get_installation_token (cache : TokenCache) (installation_id : Int)
    (now : Int) (resp : ExchangeResp) : PkgResult String :=
  let cache_key := "token_" ++ toString installation_id
  match cacheLookup cache cache_key with
  | some e =>
    if now < e.expires_at - 5 * 60 then
      { result := .ok e.token, cache := cache, exchanges := 0 }
    else
      exchange cache cache_key resp
  | none => exchange cache cache_key resp
where
  /-- The exchange tail: POST, then cache `{token, expires_at}` when the
  response advertises an expiry. -/
  exchange (cache : TokenCache) (cache_key : String) (resp : ExchangeResp) :
      PkgResult String :=
    match resp.expires_at with
    | some s =>
      if s = "" then
        { result := .ok resp.token, cache := cache, exchanges := 1 }
      else
        match parse_expires_at s with
        | some t =>
          { result := .ok resp.token,
            cache := cacheInsert cache cache_key { token := resp.token, expires_at := t },
            exchanges := 1 }
        | none =>
          { result := .error (.valueError "Invalid isoformat string"),
            cache := cache, exchanges := 1 }
    | none => { result := .ok resp.token, cache := cache, exchanges := 1 }

/-- What the installation-lookup endpoint answers for an (owner, repo)
pair: a JSON body carrying the installation id, or a non-success HTTP
status with a body (`raise_for_status` turns the latter into an
`HTTPError`). -/
inductive LookupResp where
  | ok (id : Int)
  | httpErr (status : Nat) (body : String)
  deriving Repr, DecidableEq

/-- Embedded `GitHubApp.get_installation_id`: a 404 from the lookup is
translated to `None`; any other `HTTPError` is re-raised. -/
def get_installation_id (r : LookupResp) : Except PyError (Option Int) :=
  match r with
  | .ok id => .ok (some id)
  | .httpErr s b => if s = 404 then .ok none else .error (.httpError s b)

/-- Embedded `GitHubApp.get_repository_token` (the facade): resolve, return
`None` on a missing installation, otherwise delegate to
`get_installation_token`. -/
def get_repository_token (cache : TokenCache) (lookup : LookupResp)
    (now : Int) (resp : ExchangeResp) : PkgResult (Option String) :=
  match get_installation_id lookup with
  | .error e => { result := .error e, cache := cache, exchanges := 0 }
  | .ok none => { result := .ok none, cache := cache, exchanges := 0 }
  | .ok (some iid) =>
    let r := get_installation_token cache iid now resp
    { result := r.result.map some, cache := r.cache, exchanges := r.exchanges }

/-- The expiry the package-variant Jenkins helper reports
(`jenkins_helper.py` lines 49–55): it reads `_token_cache["token_" ++ id]`
and reports that entry's `expires_at` field verbatim. -/
def jenkins_reported_expiry (cache : TokenCache) (installation_id : Int) :
    Option Int :=
  (cacheLookup cache ("token_" ++ toString installation_id)).map CacheEntry.expires_at

end github_auth_app

/-! ## Shared helper lemmas -/

namespace github_app_auth

/-- An exchange with a parseable expiry stores the token and the adjusted
expiry `raw - 5 min`. -/
theorem exchange_eq_of_parse (st : AppState) (now : Int) (resp : ExchangeResp)
    (T : Int) (hT : parse_expires_at resp.expires_at = some T) :
    get_installation_token.exchange st now resp =
      { result := .ok resp.token,
        state := { st with installation_token := some resp.token,
                           token_expires_at := some (T - 5 * 60) },
        exchanged := true } := by
  unfold get_installation_token.exchange
  rw [hT]

/-- With `force_refresh = true` and a present installation id the flat
variant goes straight to the exchange. -/
theorem get_token_force_eq (st : AppState) (now : Int) (resp : ExchangeResp)
    (hid : optStrFalsy st.installation_id = false) :
    get_installation_token st true now resp =
      get_installation_token.exchange st now resp := by
  unfold get_installation_token
  rw [hid]
  rcases st.installation_token with _ | tok <;>
    rcases st.token_expires_at with _ | exp <;> simp

/-- With the installation id unset the flat variant raises `ValueError`
immediately, modifying nothing. -/
theorem get_token_missing_id (st : AppState) (force : Bool) (now : Int)
    (resp : ExchangeResp) (h : optStrFalsy st.installation_id = true) :
    get_installation_token st force now resp =
      { result := .error (.valueError "Installation ID is required to get installation token"),
        state := st, exchanged := false } := by
  unfold get_installation_token
  rw [h]
  simp

/-- A valid cached token (nonempty, unexpired after the margin adjustment)
is served with no exchange and no state change. -/
theorem get_token_hit (st : AppState) (now : Int) (resp : ExchangeResp)
    (tok : String) (exp : Int)
    (hid : optStrFalsy st.installation_id = false)
    (htok : st.installation_token = some tok)
    (hexp : st.token_expires_at = some exp)
    (hne : tok ≠ "") (hlt : now < exp) :
    get_installation_token st false now resp =
      { result := .ok tok, state := st, exchanged := false } := by
  unfold get_installation_token
  rw [hid, htok, hexp]
  simp [hne, hlt]

/-- Every non-hit configuration of the flat cache (no token, no expiry, an
empty-string token, or a stale expiry) falls through to the exchange. -/
theorem get_token_miss (st : AppState) (now : Int) (resp : ExchangeResp)
    (hid : optStrFalsy st.installation_id = false)
    (h : st.installation_token = none ∨ st.token_expires_at = none ∨
         st.installation_token = some "" ∨
         ∃ exp, st.token_expires_at = some exp ∧ ¬ now < exp) :
    get_installation_token st false now resp =
      get_installation_token.exchange st now resp := by
  unfold get_installation_token
  rw [hid]
  rcases htok : st.installation_token with _ | tok <;>
    rcases hexp : st.token_expires_at with _ | exp <;> simp
  rcases h with h | h | h | ⟨e, he, hlt⟩
  · simp [htok] at h
  · simp [hexp] at h
  · rw [htok] at h
    simp at h
    simp [h]
  · rw [hexp] at he
    cases he
    intro _
    simp [hlt]

/-- The exchange tail always performs exactly one network exchange,
whether or not the expiry string parses. -/
theorem exchange_exchanged (st : AppState) (now : Int) (resp : ExchangeResp) :
    (get_installation_token.exchange st now resp).exchanged = true := by
  unfold get_installation_token.exchange
  rcases parse_expires_at resp.expires_at <;> simp

/-- With a present installation id, a flat-variant call either serves the
cached pair untouched or runs the exchange tail. -/
theorem get_token_hit_or_exchange (st : AppState) (force : Bool) (now : Int)
    (resp : ExchangeResp) (hid : optStrFalsy st.installation_id = false) :
    (∃ tok exp, st.installation_token = some tok ∧ st.token_expires_at = some exp ∧
       get_installation_token st force now resp =
         { result := .ok tok, state := st, exchanged := false }) ∨
    get_installation_token st force now resp =
      get_installation_token.exchange st now resp := by
  cases force with
  | true => exact Or.inr (get_token_force_eq st now resp hid)
  | false =>
    rcases htok : st.installation_token with _ | tok'
    · exact Or.inr (get_token_miss st now resp hid (Or.inl htok))
    · rcases hexp : st.token_expires_at with _ | exp
      · exact Or.inr (get_token_miss st now resp hid (Or.inr (Or.inl hexp)))
      · by_cases hne : tok' = ""
        · subst hne
          exact Or.inr (get_token_miss st now resp hid (Or.inr (Or.inr (Or.inl htok))))
        · by_cases hcmp : now < exp
          · exact Or.inl ⟨tok', exp, rfl, rfl,
              get_token_hit st now resp tok' exp hid htok hexp hne hcmp⟩
          · exact Or.inr (get_token_miss st now resp hid
              (Or.inr (Or.inr (Or.inr ⟨exp, hexp, hcmp⟩))))

/-- With a present installation id and a parseable response expiry, a
flat-variant call returns a token, never an exception. -/
theorem get_token_result_ok (st : AppState) (force : Bool) (now : Int)
    (resp : ExchangeResp) (T : Int)
    (hid : optStrFalsy st.installation_id = false)
    (hT : parse_expires_at resp.expires_at = some T) :
    ∃ tok, (get_installation_token st force now resp).result = .ok tok := by
  rcases get_token_hit_or_exchange st force now resp hid with ⟨tok, exp, _, _, heq⟩ | heq
  · exact ⟨tok, by rw [heq]⟩
  · rw [heq, exchange_eq_of_parse st now resp T hT]
    exact ⟨resp.token, rfl⟩

/-- A flat-variant call depends on the exchange response only through the
token value and the parsed expiry instant. -/
theorem get_token_congr (st : AppState) (force : Bool) (now : Int)
    (r1 r2 : ExchangeResp) (htok : r1.token = r2.token)
    (hpar : parse_expires_at r1.expires_at = parse_expires_at r2.expires_at) :
    get_installation_token st force now r1 =
      get_installation_token st force now r2 := by
  have hex : get_installation_token.exchange st now r1 =
      get_installation_token.exchange st now r2 := by
    unfold get_installation_token.exchange
    rw [htok, hpar]
  unfold get_installation_token
  rw [hex]

/-- No flat-variant call changes the configured installation id. -/
theorem get_token_preserves_id (st : AppState) (force : Bool) (now : Int)
    (resp : ExchangeResp) :
    (get_installation_token st force now resp).state.installation_id
      = st.installation_id := by
  by_cases hid : optStrFalsy st.installation_id = true
  · rw [get_token_missing_id st force now resp hid]
  · rw [Bool.not_eq_true] at hid
    rcases get_token_hit_or_exchange st force now resp hid with ⟨tok, exp, _, _, heq⟩ | heq
    · rw [heq]
    · rw [heq]
      unfold get_installation_token.exchange
      rcases parse_expires_at resp.expires_at <;> simp

end github_app_auth

namespace github_auth_app

/-- Looking up the key just inserted finds the inserted value. -/
theorem cacheLookup_cacheInsert_self (c : TokenCache) (k : String) (v : CacheEntry) :
    cacheLookup (cacheInsert c k v) k = some v := by
  induction c with
  | nil => simp [cacheInsert, cacheLookup]
  | cons hd tl ih =>
    obtain ⟨k', v'⟩ := hd
    by_cases h : k' = k <;> simp [cacheInsert, cacheLookup, h, ih]

/-- A package-variant cache entry still inside its margin window is served
with no exchange and no cache change. -/
theorem pkg_get_hit (cache : TokenCache) (iid now : Int) (resp : ExchangeResp)
    (e : CacheEntry)
    (he : cacheLookup cache ("token_" ++ toString iid) = some e)
    (hlt : now < e.expires_at - 5 * 60) :
    get_installation_token cache iid now resp =
      { result := .ok e.token, cache := cache, exchanges := 0 } := by
  unfold get_installation_token
  simp only [he]
  rw [if_pos hlt]

/-- A missing or stale package-variant entry falls through to the
exchange. -/
theorem pkg_get_miss (cache : TokenCache) (iid now : Int) (resp : ExchangeResp)
    (h : ∀ e, cacheLookup cache ("token_" ++ toString iid) = some e →
         ¬ now < e.expires_at - 5 * 60) :
    get_installation_token cache iid now resp =
      get_installation_token.exchange cache ("token_" ++ toString iid) resp := by
  unfold get_installation_token
  rcases he : cacheLookup cache ("token_" ++ toString iid) with _ | e
  · simp [he]
  · simp only [he]
    rw [if_neg (h e he)]

/-- A package-variant exchange whose response advertises a parseable expiry
caches the raw instant — no margin is subtracted before storage. -/
theorem pkg_exchange_eq (cache : TokenCache) (key tok : String) (s : String)
    (T : Int) (hs : s ≠ "") (hT : parse_expires_at s = some T) :
    get_installation_token.exchange cache key { token := tok, expires_at := some s } =
      { result := .ok tok,
        cache := cacheInsert cache key { token := tok, expires_at := T },
        exchanges := 1 } := by
  unfold get_installation_token.exchange
  simp [hs, hT]

/-- An expiry string the parser accepts is nonempty. -/
theorem parse_expires_at_ne_empty (s : String) (T : Int)
    (hT : parse_expires_at s = some T) : s ≠ "" := by
  intro h
  rw [h] at hT
  have hnone : parse_expires_at "" = none := by decide
  rw [hnone] at hT
  cases hT

end github_auth_app

/-! ## Claims -/

/-- C1: freshness invariant.  In both variants, whenever
`get_installation_token` returns a token under an environment in which the
exchange endpoint advertises an expiry more than the 5-minute margin in the
future, the cache entry standing at the instant of return satisfies
`now < rawExpiry - margin` (the flat variant stores the already-adjusted
instant `adj = rawExpiry - margin`, so there the invariant reads
`now < adj`).  In particular (third conjunct) a flat-variant cached entry
whose advertised expiry lies only 3 minutes in the future — stored adjusted
instant `now + 3 min - 5 min` — is not served: the call re-exchanges. -/
theorem c1_freshness_invariant :
    (∀ (st : github_app_auth.AppState) (force : Bool) (now : Int)
        (resp : github_app_auth.ExchangeResp) (T : Int) (tok : String),
      github_app_auth.parse_expires_at resp.expires_at = some T →
      now < T - 5 * 60 →
      (github_app_auth.get_installation_token st force now resp).result = .ok tok →
      ∃ adj, (github_app_auth.get_installation_token st force now resp).state.token_expires_at
          = some adj ∧ now < adj) ∧
    (∀ (cache : github_auth_app.TokenCache) (iid now : Int)
        (resp : github_auth_app.ExchangeResp) (s : String) (T : Int) (tok : String),
      resp.expires_at = some s →
      github_auth_app.parse_expires_at s = some T →
      now < T - 5 * 60 →
      (github_auth_app.get_installation_token cache iid now resp).result = .ok tok →
      ∃ e, github_auth_app.cacheLookup
            (github_auth_app.get_installation_token cache iid now resp).cache
            ("token_" ++ toString iid) = some e ∧
          e.token = tok ∧ now < e.expires_at - 5 * 60) ∧
    (∀ (id tok : String) (now : Int) (resp : github_app_auth.ExchangeResp),
      id ≠ "" →
      (github_app_auth.get_installation_token
        { installation_id := some id, installation_token := some tok,
          token_expires_at := some (now + 3 * 60 - 5 * 60) } false now resp).exchanged
        = true) := by
  refine ⟨?_, ?_, ?_⟩
  · intro st force now resp T tok hT hlt hok
    by_cases hid : optStrFalsy st.installation_id = true
    · rw [github_app_auth.get_token_missing_id st force now resp hid] at hok
      simp at hok
    · rw [Bool.not_eq_true] at hid
      cases force with
      | true =>
        rw [github_app_auth.get_token_force_eq st now resp hid,
            github_app_auth.exchange_eq_of_parse st now resp T hT]
        exact ⟨T - 5 * 60, rfl, by omega⟩
      | false =>
        rcases htok : st.installation_token with _ | tok'
        · rw [github_app_auth.get_token_miss st now resp hid (Or.inl htok),
              github_app_auth.exchange_eq_of_parse st now resp T hT]
          exact ⟨T - 5 * 60, rfl, by omega⟩
        · rcases hexp : st.token_expires_at with _ | exp
          · rw [github_app_auth.get_token_miss st now resp hid (Or.inr (Or.inl hexp)),
                github_app_auth.exchange_eq_of_parse st now resp T hT]
            exact ⟨T - 5 * 60, rfl, by omega⟩
          · by_cases hne : tok' = ""
            · subst hne
              rw [github_app_auth.get_token_miss st now resp hid (Or.inr (Or.inr (Or.inl htok))),
                  github_app_auth.exchange_eq_of_parse st now resp T hT]
              exact ⟨T - 5 * 60, rfl, by omega⟩
            · by_cases hcmp : now < exp
              · rw [github_app_auth.get_token_hit st now resp tok' exp hid htok hexp hne hcmp]
                exact ⟨exp, hexp, hcmp⟩
              · rw [github_app_auth.get_token_miss st now resp hid
                      (Or.inr (Or.inr (Or.inr ⟨exp, hexp, hcmp⟩))),
                    github_app_auth.exchange_eq_of_parse st now resp T hT]
                exact ⟨T - 5 * 60, rfl, by omega⟩
  · intro cache iid now resp s T tok hs hT hlt hok
    have hsne : s ≠ "" := github_auth_app.parse_expires_at_ne_empty s T hT
    obtain ⟨rtok, rexp⟩ := resp
    simp only at hs
    subst hs
    rcases he : github_auth_app.cacheLookup cache ("token_" ++ toString iid) with _ | e
    · rw [github_auth_app.pkg_get_miss cache iid now _
            (by intro e h; rw [he] at h; cases h),
          github_auth_app.pkg_exchange_eq cache _ rtok s T hsne hT] at hok ⊢
      simp only [Except.ok.injEq] at hok
      subst hok
      exact ⟨{ token := rtok, expires_at := T },
             github_auth_app.cacheLookup_cacheInsert_self cache _ _, rfl, hlt⟩
    · by_cases hc : now < e.expires_at - 5 * 60
      · rw [github_auth_app.pkg_get_hit cache iid now _ e he hc] at hok ⊢
        simp only [Except.ok.injEq] at hok
        subst hok
        exact ⟨e, he, rfl, hc⟩
      · rw [github_auth_app.pkg_get_miss cache iid now _
              (by intro e' h'; rw [he] at h'; cases h'; exact hc),
            github_auth_app.pkg_exchange_eq cache _ rtok s T hsne hT] at hok ⊢
        simp only [Except.ok.injEq] at hok
        subst hok
        exact ⟨{ token := rtok, expires_at := T },
               github_auth_app.cacheLookup_cacheInsert_self cache _ _, rfl, hlt⟩
  · intro id tok now resp hid
    have hidf : optStrFalsy (some id) = false := by simp [optStrFalsy, hid]
    by_cases hne : tok = ""
    · subst hne
      rw [github_app_auth.get_token_miss _ now resp hidf (Or.inr (Or.inr (Or.inl rfl)))]
      exact github_app_auth.exchange_exchanged _ now resp
    · rw [github_app_auth.get_token_miss _ now resp hidf
            (Or.inr (Or.inr (Or.inr ⟨now + 3 * 60 - 5 * 60, rfl, by omega⟩)))]
      exact github_app_auth.exchange_exchanged _ now resp

/-- C1 witness: concrete instantiations of the three conjuncts — a cold
flat-variant fetch at `now = 0` against a response expiring 2024-01-01
12:00 UTC leaves a cache satisfying the invariant; so does the package
variant; and a flat cached entry advertised to expire 3 minutes from
`now = 1000` is re-exchanged. -/
theorem c1_freshness_invariant_witness :
    (∃ adj, (github_app_auth.get_installation_token
        { installation_id := some "456", installation_token := none,
          token_expires_at := none }
        false 0 { token := "t", expires_at := "2024-01-01T12:00:00Z" }).state.token_expires_at
        = some adj ∧ (0 : Int) < adj) ∧
    (∃ e, github_auth_app.cacheLookup
        (github_auth_app.get_installation_token [] 7 0
          { token := "t", expires_at := some "2024-01-01T12:00:00Z" }).cache
        ("token_" ++ toString (7 : Int)) = some e ∧
        e.token = "t" ∧ (0 : Int) < e.expires_at - 5 * 60) ∧
    (github_app_auth.get_installation_token
        { installation_id := some "456", installation_token := some "old",
          token_expires_at := some (1000 + 3 * 60 - 5 * 60) }
        false 1000 { token := "t", expires_at := "2024-01-01T12:00:00Z" }).exchanged
      = true :=
  ⟨c1_freshness_invariant.1
      { installation_id := some "456", installation_token := none, token_expires_at := none }
      false 0 { token := "t", expires_at := "2024-01-01T12:00:00Z" } 1704110400 "t"
      (by decide) (by decide) (by decide),
   c1_freshness_invariant.2.1 [] 7 0
      { token := "t", expires_at := some "2024-01-01T12:00:00Z" }
      "2024-01-01T12:00:00Z" 1704110400 "t" rfl (by decide) (by decide) (by decide),
   c1_freshness_invariant.2.2 "456" "old" 1000
      { token := "t", expires_at := "2024-01-01T12:00:00Z" } (by decide)⟩

/-- C3: caching idempotence.  From a cold cache, two consecutive
non-forced `get_installation_token` calls — the second while the first
response's expiry is still more than the margin away — perform exactly one
exchange in total (the second call touches no network, whatever the
environment would have answered), return the same token value both times,
and leave the state unchanged after the second call.  Proved for the flat
variant and the package variant. -/
theorem c3_caching_idempotence :
    (∀ (id : String) (now1 now2 : Int)
        (resp1 resp2 : github_app_auth.ExchangeResp) (T : Int),
      id ≠ "" → resp1.token ≠ "" →
      github_app_auth.parse_expires_at resp1.expires_at = some T →
      now2 < T - 5 * 60 →
      (github_app_auth.get_installation_token
          { installation_id := some id, installation_token := none,
            token_expires_at := none } false now1 resp1).exchanged = true ∧
      (github_app_auth.get_installation_token
          (github_app_auth.get_installation_token
            { installation_id := some id, installation_token := none,
              token_expires_at := none } false now1 resp1).state
          false now2 resp2).exchanged = false ∧
      (github_app_auth.get_installation_token
          { installation_id := some id, installation_token := none,
            token_expires_at := none } false now1 resp1).result = .ok resp1.token ∧
      (github_app_auth.get_installation_token
          (github_app_auth.get_installation_token
            { installation_id := some id, installation_token := none,
              token_expires_at := none } false now1 resp1).state
          false now2 resp2).result = .ok resp1.token ∧
      (github_app_auth.get_installation_token
          (github_app_auth.get_installation_token
            { installation_id := some id, installation_token := none,
              token_expires_at := none } false now1 resp1).state
          false now2 resp2).state =
        (github_app_auth.get_installation_token
          { installation_id := some id, installation_token := none,
            token_expires_at := none } false now1 resp1).state) ∧
    (∀ (iid now1 now2 : Int) (tok1 s : String)
        (resp2 : github_auth_app.ExchangeResp) (T : Int),
      github_auth_app.parse_expires_at s = some T →
      now2 < T - 5 * 60 →
      (github_auth_app.get_installation_token [] iid now1
          { token := tok1, expires_at := some s }).exchanges = 1 ∧
      (github_auth_app.get_installation_token
          (github_auth_app.get_installation_token [] iid now1
            { token := tok1, expires_at := some s }).cache
          iid now2 resp2).exchanges = 0 ∧
      (github_auth_app.get_installation_token [] iid now1
          { token := tok1, expires_at := some s }).result = .ok tok1 ∧
      (github_auth_app.get_installation_token
          (github_auth_app.get_installation_token [] iid now1
            { token := tok1, expires_at := some s }).cache
          iid now2 resp2).result = .ok tok1 ∧
      (github_auth_app.get_installation_token
          (github_auth_app.get_installation_token [] iid now1
            { token := tok1, expires_at := some s }).cache
          iid now2 resp2).cache =
        (github_auth_app.get_installation_token [] iid now1
          { token := tok1, expires_at := some s }).cache) := by
  constructor
  · intro id now1 now2 resp1 resp2 T hid htokne hT hlt
    have hidf : optStrFalsy (some id) = false := by simp [optStrFalsy, hid]
    have h1 : github_app_auth.get_installation_token
        { installation_id := some id, installation_token := none,
          token_expires_at := none } false now1 resp1 =
        { result := .ok resp1.token,
          state := { installation_id := some id,
                     installation_token := some resp1.token,
                     token_expires_at := some (T - 5 * 60) },
          exchanged := true } := by
      rw [github_app_auth.get_token_miss _ now1 resp1 hidf (Or.inl rfl),
          github_app_auth.exchange_eq_of_parse _ now1 resp1 T hT]
    have h2 : github_app_auth.get_installation_token
        { installation_id := some id, installation_token := some resp1.token,
          token_expires_at := some (T - 5 * 60) } false now2 resp2 =
        { result := .ok resp1.token,
          state := { installation_id := some id,
                     installation_token := some resp1.token,
                     token_expires_at := some (T - 5 * 60) },
          exchanged := false } :=
      github_app_auth.get_token_hit _ now2 resp2 resp1.token (T - 5 * 60)
        hidf rfl rfl htokne hlt
    rw [h1]
    rw [h2]
    simp
  · intro iid now1 now2 tok1 s resp2 T hT hlt
    have hsne : s ≠ "" := github_auth_app.parse_expires_at_ne_empty s T hT
    have h1 : github_auth_app.get_installation_token [] iid now1
        { token := tok1, expires_at := some s } =
        { result := .ok tok1,
          cache := github_auth_app.cacheInsert [] ("token_" ++ toString iid)
            { token := tok1, expires_at := T },
          exchanges := 1 } := by
      rw [github_auth_app.pkg_get_miss [] iid now1 _
            (by intro e h; simp [github_auth_app.cacheLookup] at h),
          github_auth_app.pkg_exchange_eq [] _ tok1 s T hsne hT]
    have h2 : github_auth_app.get_installation_token
        (github_auth_app.cacheInsert [] ("token_" ++ toString iid)
          { token := tok1, expires_at := T }) iid now2 resp2 =
        { result := .ok tok1,
          cache := github_auth_app.cacheInsert [] ("token_" ++ toString iid)
            { token := tok1, expires_at := T },
          exchanges := 0 } :=
      github_auth_app.pkg_get_hit _ iid now2 resp2 { token := tok1, expires_at := T }
        (github_auth_app.cacheLookup_cacheInsert_self [] _ _) hlt
    rw [h1]
    rw [h2]
    simp

/-- C3 witness: concrete double fetch in each variant — one exchange in
total, identical tokens, unchanged state after the second call. -/
theorem c3_caching_idempotence_witness :
    ((github_app_auth.get_installation_token
        { installation_id := some "456", installation_token := none,
          token_expires_at := none }
        false 0 { token := "t", expires_at := "2024-01-01T12:00:00Z" }).exchanged
      = true ∧
     (github_app_auth.get_installation_token
        (github_app_auth.get_installation_token
          { installation_id := some "456", installation_token := none,
            token_expires_at := none }
          false 0 { token := "t", expires_at := "2024-01-01T12:00:00Z" }).state
        false 60 { token := "other", expires_at := "2025-01-01T12:00:00Z" }).exchanged
      = false) ∧
    ((github_auth_app.get_installation_token [] 7 0
        { token := "t", expires_at := some "2024-01-01T12:00:00Z" }).exchanges = 1 ∧
     (github_auth_app.get_installation_token
        (github_auth_app.get_installation_token [] 7 0
          { token := "t", expires_at := some "2024-01-01T12:00:00Z" }).cache
        7 60 { token := "other", expires_at := some "2025-01-01T12:00:00Z" }).exchanges
      = 0) :=
  ⟨⟨(c3_caching_idempotence.1 "456" 0 60
      { token := "t", expires_at := "2024-01-01T12:00:00Z" }
      { token := "other", expires_at := "2025-01-01T12:00:00Z" } 1704110400
      (by decide) (by decide) (by decide) (by decide)).1,
    (c3_caching_idempotence.1 "456" 0 60
      { token := "t", expires_at := "2024-01-01T12:00:00Z" }
      { token := "other", expires_at := "2025-01-01T12:00:00Z" } 1704110400
      (by decide) (by decide) (by decide) (by decide)).2.1⟩,
   ⟨(c3_caching_idempotence.2 7 0 60 "t" "2024-01-01T12:00:00Z"
      { token := "other", expires_at := some "2025-01-01T12:00:00Z" } 1704110400
      (by decide) (by decide)).1,
    (c3_caching_idempotence.2 7 0 60 "t" "2024-01-01T12:00:00Z"
      { token := "other", expires_at := some "2025-01-01T12:00:00Z" } 1704110400
      (by decide) (by decide)).2.1⟩⟩

/-- C7: the two spellings `"2024-01-01T12:00:00Z"` and
`"2024-01-01T12:00:00+00:00"` of the same instant parse — through each
variant's normalization plus `fromisoformat` — to the identical absolute
UTC epoch second 1704110400, and feeding either spelling as the exchange
response's expiry gives byte-identical `get_installation_token` results
(hence identical cached entries and identical later hit/miss behaviour) in
both variants. -/
theorem c7_timestamp_normalization :
    github_app_auth.parse_expires_at "2024-01-01T12:00:00Z" = some 1704110400 ∧
    github_app_auth.parse_expires_at "2024-01-01T12:00:00+00:00" = some 1704110400 ∧
    github_auth_app.parse_expires_at "2024-01-01T12:00:00Z" = some 1704110400 ∧
    github_auth_app.parse_expires_at "2024-01-01T12:00:00+00:00" = some 1704110400 ∧
    (∀ (st : github_app_auth.AppState) (force : Bool) (now : Int) (tok : String),
      github_app_auth.get_installation_token st force now
          { token := tok, expires_at := "2024-01-01T12:00:00Z" } =
        github_app_auth.get_installation_token st force now
          { token := tok, expires_at := "2024-01-01T12:00:00+00:00" }) ∧
    (∀ (cache : github_auth_app.TokenCache) (iid now : Int) (tok : String),
      github_auth_app.get_installation_token cache iid now
          { token := tok, expires_at := some "2024-01-01T12:00:00Z" } =
        github_auth_app.get_installation_token cache iid now
          { token := tok, expires_at := some "2024-01-01T12:00:00+00:00" }) := by
  refine ⟨by decide, by decide, by decide, by decide, ?_, ?_⟩
  · intro st force now tok
    exact github_app_auth.get_token_congr st force now
      { token := tok, expires_at := "2024-01-01T12:00:00Z" }
      { token := tok, expires_at := "2024-01-01T12:00:00+00:00" }
      rfl
      (show github_app_auth.parse_expires_at "2024-01-01T12:00:00Z" =
          github_app_auth.parse_expires_at "2024-01-01T12:00:00+00:00" from by decide)
  · intro cache iid now tok
    have hz : github_auth_app.parse_expires_at "2024-01-01T12:00:00Z"
        = some 1704110400 := by decide
    have ho : github_auth_app.parse_expires_at "2024-01-01T12:00:00+00:00"
        = some 1704110400 := by decide
    rcases he : github_auth_app.cacheLookup cache ("token_" ++ toString iid) with _ | e
    · rw [github_auth_app.pkg_get_miss cache iid now _
            (by intro e h; rw [he] at h; cases h),
          github_auth_app.pkg_get_miss cache iid now _
            (by intro e h; rw [he] at h; cases h),
          github_auth_app.pkg_exchange_eq cache _ tok _ 1704110400 (by decide) hz,
          github_auth_app.pkg_exchange_eq cache _ tok _ 1704110400 (by decide) ho]
    · by_cases hc : now < e.expires_at - 5 * 60
      · rw [github_auth_app.pkg_get_hit cache iid now _ e he hc,
            github_auth_app.pkg_get_hit cache iid now _ e he hc]
      · rw [github_auth_app.pkg_get_miss cache iid now _
              (by intro e' h'; rw [he] at h'; cases h'; exact hc),
            github_auth_app.pkg_get_miss cache iid now _
              (by intro e' h'; rw [he] at h'; cases h'; exact hc),
            github_auth_app.pkg_exchange_eq cache _ tok _ 1704110400 (by decide) hz,
            github_auth_app.pkg_exchange_eq cache _ tok _ 1704110400 (by decide) ho]

/-- C2 counterexample: in the package variant a successful exchange whose
response advertises expiry 2024-01-01T12:00:00Z (epoch 1704110400) stores
that raw instant in the cache — not `raw - 5 min` — and the package Jenkins
helper (which reads the cached entry's `expires_at` verbatim) therefore
reports the unreduced instant, refuting the claim that every reader of a
stored entry observes an already-reduced expiry. -/
theorem c2_margin_counterexample :
    (github_auth_app.get_installation_token [] 1 0
        { token := "t", expires_at := some "2024-01-01T12:00:00Z" }).cache =
      [("token_1", { token := "t", expires_at := 1704110400 })] ∧
    github_auth_app.parse_expires_at "2024-01-01T12:00:00Z" = some 1704110400 ∧
    github_auth_app.jenkins_reported_expiry
        (github_auth_app.get_installation_token [] 1 0
          { token := "t", expires_at := some "2024-01-01T12:00:00Z" }).cache 1 =
      some 1704110400 ∧
    (1704110400 : Int) ≠ 1704110400 - 5 * 60 := by
  refine ⟨by decide, by decide, by decide, by decide⟩

/-- C2 amended: the margin's location differs between the variants.  In the
flat variant every exchange stores `adjustedExpiry = rawExpiry - 5 min` at
put time and its Jenkins helper reports that already-reduced instant; in
the package variant the exchange stores the raw advertised expiry (the
margin is applied at read time instead) and its Jenkins helper reports the
raw, unreduced instant. -/
theorem c2_margin_amended :
    (∀ (st : github_app_auth.AppState) (force : Bool) (now T : Int)
        (resp : github_app_auth.ExchangeResp),
      github_app_auth.parse_expires_at resp.expires_at = some T →
      (github_app_auth.get_installation_token st force now resp).exchanged = true →
      (github_app_auth.get_installation_token st force now resp).state.token_expires_at
        = some (T - 5 * 60)) ∧
    (∀ (id : String) (now T : Int) (resp : github_app_auth.ExchangeResp),
      id ≠ "" →
      github_app_auth.parse_expires_at resp.expires_at = some T →
      github_app_auth.get_credentials_for_jenkins
          { installation_id := some id, installation_token := none,
            token_expires_at := none } now resp
        = .ok (resp.token, some (T - 5 * 60))) ∧
    (∀ (cache : github_auth_app.TokenCache) (iid now T : Int) (rtok s : String),
      github_auth_app.parse_expires_at s = some T →
      (github_auth_app.get_installation_token cache iid now
          { token := rtok, expires_at := some s }).exchanges = 1 →
      github_auth_app.cacheLookup
          (github_auth_app.get_installation_token cache iid now
            { token := rtok, expires_at := some s }).cache
          ("token_" ++ toString iid)
        = some { token := rtok, expires_at := T } ∧
      github_auth_app.jenkins_reported_expiry
          (github_auth_app.get_installation_token cache iid now
            { token := rtok, expires_at := some s }).cache iid
        = some T) := by
  refine ⟨?_, ?_, ?_⟩
  · intro st force now T resp hT hex
    by_cases hid : optStrFalsy st.installation_id = true
    · rw [github_app_auth.get_token_missing_id st force now resp hid] at hex
      simp at hex
    · rw [Bool.not_eq_true] at hid
      rcases github_app_auth.get_token_hit_or_exchange st force now resp hid with
        ⟨tok, exp, _, _, heq⟩ | heq
      · rw [heq] at hex
        simp at hex
      · rw [heq, github_app_auth.exchange_eq_of_parse st now resp T hT]
  · intro id now T resp hid hT
    have hidf : optStrFalsy (some id) = false := by simp [optStrFalsy, hid]
    unfold github_app_auth.get_credentials_for_jenkins
    rw [github_app_auth.get_token_miss _ now resp hidf (Or.inl rfl),
        github_app_auth.exchange_eq_of_parse _ now resp T hT]
  · intro cache iid now T rtok s hT hex
    have hsne : s ≠ "" := github_auth_app.parse_expires_at_ne_empty s T hT
    rcases he : github_auth_app.cacheLookup cache ("token_" ++ toString iid) with _ | e
    · rw [github_auth_app.pkg_get_miss cache iid now _
            (by intro e h; rw [he] at h; cases h),
          github_auth_app.pkg_exchange_eq cache _ rtok s T hsne hT]
      refine ⟨github_auth_app.cacheLookup_cacheInsert_self cache _ _, ?_⟩
      unfold github_auth_app.jenkins_reported_expiry
      rw [github_auth_app.cacheLookup_cacheInsert_self cache _ _]
      rfl
    · by_cases hc : now < e.expires_at - 5 * 60
      · rw [github_auth_app.pkg_get_hit cache iid now _ e he hc] at hex
        simp at hex
      · rw [github_auth_app.pkg_get_miss cache iid now _
              (by intro e' h'; rw [he] at h'; cases h'; exact hc),
            github_auth_app.pkg_exchange_eq cache _ rtok s T hsne hT]
        refine ⟨github_auth_app.cacheLookup_cacheInsert_self cache _ _, ?_⟩
        unfold github_auth_app.jenkins_reported_expiry
        rw [github_auth_app.cacheLookup_cacheInsert_self cache _ _]
        rfl

/-- C2 amended witness: concrete exchanges in each variant — the flat
object caches and its helper reports 1704110100 (= raw − 300 s), the
package cache and helper hold and report the raw 1704110400. -/
theorem c2_margin_amended_witness :
    (github_app_auth.get_installation_token
        { installation_id := some "456", installation_token := none,
          token_expires_at := none }
        false 0 { token := "t", expires_at := "2024-01-01T12:00:00Z" }).state.token_expires_at
      = some 1704110100 ∧
    github_app_auth.get_credentials_for_jenkins
        { installation_id := some "456", installation_token := none,
          token_expires_at := none }
        0 { token := "t", expires_at := "2024-01-01T12:00:00Z" }
      = .ok ("t", some 1704110100) ∧
    github_auth_app.jenkins_reported_expiry
        (github_auth_app.get_installation_token [] 1 0
          { token := "t", expires_at := some "2024-01-01T12:00:00Z" }).cache 1
      = some 1704110400 :=
  ⟨by
    have h := c2_margin_amended.1
      { installation_id := some "456", installation_token := none,
        token_expires_at := none }
      false 0 1704110400 { token := "t", expires_at := "2024-01-01T12:00:00Z" }
      (by decide) (by decide)
    simpa using h,
   by
    have h := c2_margin_amended.2.1 "456" 0 1704110400
      { token := "t", expires_at := "2024-01-01T12:00:00Z" } (by decide) (by decide)
    simpa using h,
   (c2_margin_amended.2.2 [] 1 0 1704110400 "t" "2024-01-01T12:00:00Z"
      (by decide) (by decide)).2⟩

/-- C6: every signed assertion's payload has `exp - iat = 600` seconds
exactly, `iat` equal to the signing instant `now`, and `iss` equal to the
configured app identifier — in both variants (`generate_jwt` of the flat
module and `_create_jwt` of the package). -/
theorem c6_assertion_expiry_bound (app_id : String) (now : Int) :
    (github_app_auth.generate_jwt app_id now).exp
        - (github_app_auth.generate_jwt app_id now).iat = 600 ∧
    (github_app_auth.generate_jwt app_id now).iat = now ∧
    (github_app_auth.generate_jwt app_id now).iss = app_id ∧
    (github_auth_app.create_jwt app_id now).exp
        - (github_auth_app.create_jwt app_id now).iat = 600 ∧
    (github_auth_app.create_jwt app_id now).iat = now ∧
    (github_auth_app.create_jwt app_id now).iss = app_id := by
  refine ⟨?_, rfl, rfl, ?_, rfl, rfl⟩ <;>
    simp [github_app_auth.generate_jwt, github_auth_app.create_jwt]

/-- C9: `Config.__post_init__` succeeds exactly when the app identifier
parses as a Python integer, the private-key path exists on the (modelled)
filesystem, and the installation id — when supplied — parses as an integer;
otherwise construction raises before any network activity (the embedded
`post_init` is pure and performs none). -/
theorem c9_config_validation (fsExists : String → Bool) (c : github_auth_app.Config) :
    github_auth_app.post_init fsExists c = .ok () ↔
      (github_auth_app.pyIntParses c.app_id = true ∧
       fsExists c.private_key_path = true ∧
       ∀ i, c.installation_id = some i → github_auth_app.pyIntParses i = true) := by
  unfold github_auth_app.post_init
  rcases hinst : c.installation_id with _ | i
  · by_cases h1 : github_auth_app.pyIntParses c.app_id <;>
      by_cases h2 : fsExists c.private_key_path <;> simp [h1, h2, hinst]
  · by_cases h1 : github_auth_app.pyIntParses c.app_id <;>
      by_cases h2 : fsExists c.private_key_path <;>
      by_cases h3 : github_auth_app.pyIntParses i <;> simp [h1, h2, h3, hinst]

/-- C9 witness: a config with numeric `app_id`, an existing key path and a
numeric installation id constructs successfully. -/
theorem c9_config_validation_witness :
    github_auth_app.post_init (fun p => p == "/k.pem")
      { app_id := "123", private_key_path := "/k.pem", installation_id := some "456" }
      = .ok () := by
  refine (c9_config_validation _ _).mpr ⟨by decide, by decide, ?_⟩
  intro i hi
  cases hi
  decide

/-- C10: if the flat variant's installation id is unset (`None` or the empty
string), `get_installation_token` raises `ValueError` whatever
`force_refresh` is, performs no exchange (the exchange branch is also the
only place a JWT assertion is minted), and leaves the cached token state
unchanged. -/
theorem c10_missing_installation_id (st : github_app_auth.AppState)
    (force : Bool) (now : Int) (resp : github_app_auth.ExchangeResp)
    (h : optStrFalsy st.installation_id = true) :
    github_app_auth.get_installation_token st force now resp =
      { result := .error (.valueError "Installation ID is required to get installation token"),
        state := st, exchanged := false } := by
  unfold github_app_auth.get_installation_token
  rw [h]
  simp

/-- C10 witness: an app constructed without an installation id, called with
`force_refresh = true`, raises and leaves the (empty) cache untouched. -/
theorem c10_missing_installation_id_witness :
    optStrFalsy (none : Option String) = true ∧
    github_app_auth.get_installation_token
        { installation_id := none, installation_token := none, token_expires_at := none }
        true 0 { token := "t", expires_at := "2024-01-01T12:00:00Z" } =
      { result := .error (.valueError "Installation ID is required to get installation token"),
        state := { installation_id := none, installation_token := none,
                   token_expires_at := none },
        exchanged := false } :=
  ⟨by decide,
   c10_missing_installation_id
     { installation_id := none, installation_token := none, token_expires_at := none }
     true 0 { token := "t", expires_at := "2024-01-01T12:00:00Z" } (by decide)⟩

/-- C5: a 404 from the installation lookup makes `get_installation_id`
return `None` rather than raise; `get_repository_token` then returns `None`
without sending any token-exchange request and without touching the cache;
and a non-404 non-success lookup status is propagated as an `HTTPError`
carrying that status and body. -/
theorem c5_resolution_absence (body : String) :
    github_auth_app.get_installation_id (.httpErr 404 body) = .ok none ∧
    (∀ (cache : github_auth_app.TokenCache) (now : Int)
        (resp : github_auth_app.ExchangeResp),
      github_auth_app.get_repository_token cache (.httpErr 404 body) now resp =
        { result := .ok none, cache := cache, exchanges := 0 }) ∧
    (∀ (s : Nat) (b : String), s ≠ 404 →
      github_auth_app.get_installation_id (.httpErr s b) =
        .error (.httpError s b)) := by
  refine ⟨rfl, fun cache now resp => rfl, fun s b hs => ?_⟩
  simp [github_auth_app.get_installation_id, hs]

/-- C5 witness: a 404 lookup for a concrete pair yields `None` with zero
exchanges, and a 500 lookup propagates as an error. -/
theorem c5_resolution_absence_witness :
    github_auth_app.get_repository_token [] (.httpErr 404 "missing") 0
        { token := "t", expires_at := none } =
      { result := .ok none, cache := [], exchanges := 0 } ∧
    github_auth_app.get_installation_id (.httpErr 500 "boom") =
      .error (.httpError 500 "boom") :=
  ⟨(c5_resolution_absence "missing").2.1 [] 0 { token := "t", expires_at := none },
   (c5_resolution_absence "missing").2.2 500 "boom" (by decide)⟩

/-- C8 counterexample: starting from a valid cached token at `now = 0`,
with the API answering 401 on both the first attempt and the retry,
`make_api_request` force-refreshes once, retries once — and then returns
the second 401 response as its ordinary return value (`Except.ok 401`),
raising nothing: the second authentication failure is not surfaced as a
`RemoteError` by this function. -/
theorem c8_retry_counterexample :
    github_app_auth.make_api_request
        { installation_id := some "456", installation_token := some "cached",
          token_expires_at := some 99999999999 }
        0 { token := "t1", expires_at := "2024-01-01T12:00:00Z" }
        { token := "t2", expires_at := "2024-01-01T12:00:00Z" } 401 401 =
      { result := .ok 401,
        state := { installation_id := some "456", installation_token := some "t2",
                   token_expires_at := some 1704110100 },
        exchanges := 1, apiCalls := 2, forcedRefreshes := 1 } := by
  decide

/-- C8 amended: on a 401 first response (with the token layer healthy —
installation id present, parseable expiries), `make_api_request` calls
`get_installation_token` with `force_refresh = true` exactly once and
re-sends the request exactly once, and the retry's response — whatever its
status, a second 401 included — is returned to the caller as the function's
return value; raising on it is left to callers such as
`get_repository_content` via `raise_for_status`. -/
theorem c8_retry_once_amended (st : github_app_auth.AppState) (now : Int)
    (resp1 resp2 : github_app_auth.ExchangeResp) (status2 : Nat) (T1 T2 : Int)
    (hid : optStrFalsy st.installation_id = false)
    (hp1 : github_app_auth.parse_expires_at resp1.expires_at = some T1)
    (hp2 : github_app_auth.parse_expires_at resp2.expires_at = some T2) :
    (github_app_auth.make_api_request st now resp1 resp2 401 status2).forcedRefreshes
      = 1 ∧
    (github_app_auth.make_api_request st now resp1 resp2 401 status2).apiCalls = 2 ∧
    (github_app_auth.make_api_request st now resp1 resp2 401 status2).result
      = .ok status2 := by
  obtain ⟨tok1, hok1⟩ := github_app_auth.get_token_result_ok st false now resp1 T1 hid hp1
  obtain ⟨tok2, hok2⟩ := github_app_auth.get_token_result_ok
    (github_app_auth.get_installation_token st false now resp1).state true now resp2 T2
    (by rw [github_app_auth.get_token_preserves_id]; exact hid) hp2
  unfold github_app_auth.make_api_request
  simp [hok1, hok2]

/-- C8 amended witness: the concrete double-401 run — one forced refresh,
two API calls, and the second 401 returned as the result. -/
theorem c8_retry_once_amended_witness :
    (github_app_auth.make_api_request
        { installation_id := some "456", installation_token := some "cached",
          token_expires_at := some 99999999999 }
        0 { token := "t1", expires_at := "2024-01-01T12:00:00Z" }
        { token := "t2", expires_at := "2024-01-01T12:00:00Z" } 401 401).forcedRefreshes
      = 1 ∧
    (github_app_auth.make_api_request
        { installation_id := some "456", installation_token := some "cached",
          token_expires_at := some 99999999999 }
        0 { token := "t1", expires_at := "2024-01-01T12:00:00Z" }
        { token := "t2", expires_at := "2024-01-01T12:00:00Z" } 401 401).result
      = .ok 401 := by
  have h := c8_retry_once_amended
    { installation_id := some "456", installation_token := some "cached",
      token_expires_at := some 99999999999 }
    0 { token := "t1", expires_at := "2024-01-01T12:00:00Z" }
    { token := "t2", expires_at := "2024-01-01T12:00:00Z" } 401 1704110400 1704110400
    (by decide) (by decide) (by decide)
  exact ⟨h.1, h.2.2⟩

/-- C4: with `force_refresh = true` the flat variant skips the cache test
entirely — whatever (possibly still valid) entry is cached — performs an
exchange, returns the fresh token, and afterwards the object holds the new
token and the new adjusted expiry `raw - 5 min`, not the old pair. -/
theorem c4_forced_refresh (st : github_app_auth.AppState) (now T : Int)
    (resp : github_app_auth.ExchangeResp)
    (hid : optStrFalsy st.installation_id = false)
    (hT : github_app_auth.parse_expires_at resp.expires_at = some T) :
    github_app_auth.get_installation_token st true now resp =
      { result := .ok resp.token,
        state := { st with installation_token := some resp.token,
                           token_expires_at := some (T - 5 * 60) },
        exchanged := true } := by
  rw [github_app_auth.get_token_force_eq st now resp hid,
      github_app_auth.exchange_eq_of_parse st now resp T hT]

/-- C4 witness: an app holding a perfectly valid cached token ("old", good
for another ~317 years) still re-exchanges under `force_refresh = true` and
ends up caching the new token with the new adjusted expiry. -/
theorem c4_forced_refresh_witness :
    github_app_auth.get_installation_token
        { installation_id := some "456", installation_token := some "old",
          token_expires_at := some 9999999999 }
        true 0 { token := "new", expires_at := "2024-01-01T12:00:00Z" } =
      { result := .ok "new",
        state := { installation_id := some "456", installation_token := some "new",
                   token_expires_at := some 1704110100 },
        exchanged := true } :=
  c4_forced_refresh
    { installation_id := some "456", installation_token := some "old",
      token_expires_at := some 9999999999 }
    0 1704110400 { token := "new", expires_at := "2024-01-01T12:00:00Z" }
    (by decide) (by decide)
